import Mathlib

/-!
Verification of the sentinel_api `SentinelDownloader` pipeline
(search pagination, result parsing, overlap filtering, existing-file
filtering, scene merging, download-and-verify loop, session state)
against its natural-language specification.

The Python code is shallowly embedded: geometry operations (areas,
intersections, WKT validity, file existence, HTTP responses) are inputs
to the embedded functions, exactly as the code consumes their results;
Python exceptions are modelled with `Except PyErr`.
-/

/-- Exception kinds raised by the modelled Python code and the libraries
it calls. -/
inductive PyErr where
  | zeroDivisionError
  | keyError
  | indexError
  | valueError
  | runtimeError
  | notImplementedError
  | osError
  | exception (msg : String)
deriving DecidableEq

/-- Python float division: raises `ZeroDivisionError` when the denominator is zero. -/
def pydiv (a b : ℚ) : Except PyErr ℚ :=
  if b = 0 then .error .zeroDivisionError else .ok (a / b)

/-- A scene as seen by `_filter_overlap`: the geometry library's answers for
this scene (footprint area from `vec2.getArea()`, and the result of
`intersect(vec1, vec2)`: `none` when the intersection is empty, otherwise
the intersection area) together with the rest of the record (`payload`)
and the `_script_overlap` key (absent on input). -/
structure OvScene (α : Type) where
  payload : α
  footprintArea : ℚ
  interArea : Option ℚ
  scriptOverlap : Option ℚ
deriving DecidableEq

/-- The retention condition of `_filter_overlap`, with Python's
short-circuit evaluation: `overlap > min_overlap or
(site_area / footprint_area > 1 and intersect_area / footprint_area > min_overlap)`.
Each division can raise `ZeroDivisionError`. -/
def overlapKeep (siteArea minOverlap fpArea ia overlap : ℚ) : Except PyErr Bool :=
  if overlap > minOverlap then .ok true
  else
    match pydiv siteArea fpArea with
    | .error e => .error e
    | .ok r1 =>
      if r1 > 1 then
        match pydiv ia fpArea with
        | .error e => .error e
        | .ok r2 => .ok (decide (r2 > minOverlap))
      else .ok false

/-- `_filter_overlap`: `site_area` is `vec1.getArea()` for the area of
interest; each kept scene gets `_script_overlap = overlap * 100`.
An uncaught `ZeroDivisionError` aborts the whole call. -/
def filter_overlap {α : Type} (siteArea minOverlap : ℚ) :
    List (OvScene α) → Except PyErr (List (OvScene α))
  | [] => .ok []
  | scene :: rest =>
    let step : Except PyErr (ℚ × ℚ) :=
      match scene.interArea with
      | some ia =>
        match pydiv ia siteArea with
        | .error e => .error e
        | .ok ov => .ok (ia, ov)
      | none => .ok (0, 0)
    match step with
    | .error e => .error e
    | .ok (ia, ov) =>
      match overlapKeep siteArea minOverlap scene.footprintArea ia ov with
      | .error e => .error e
      | .ok keep =>
        match filter_overlap siteArea minOverlap rest with
        | .error e => .error e
        | .ok rest2 =>
          if keep then .ok ({ scene with scriptOverlap := some (ov * 100) } :: rest2)
          else .ok rest2

/-- Modelled from the spec's words for the refinement statement of the
overlap filter: a scene is retained iff `overlap > min_overlap` or
(`aoi_area / footprint_area > 1` and `intersection_area / footprint_area
> min_overlap`), where `overlap = intersection_area / aoi_area` and both
are `0` when the footprint does not intersect the area of interest. -/
def specKeep (siteArea minOverlap fpArea : ℚ) (interArea : Option ℚ) : Bool :=
  let ia := interArea.getD 0
  let overlap := ia / siteArea
  decide (overlap > minOverlap ∨ (siteArea / fpArea > 1 ∧ ia / fpArea > minOverlap))

/-- Spec-side description of the overlap filter's output: the retained
scenes in order, each annotated with `overlap * 100`, otherwise unchanged. -/
def filter_overlap_spec {α : Type} (siteArea minOverlap : ℚ) (scenes : List (OvScene α)) :
    List (OvScene α) :=
  (scenes.filter (fun s => specKeep siteArea minOverlap s.footprintArea s.interArea)).map
    (fun s => { s with scriptOverlap := some (s.interArea.getD 0 / siteArea * 100) })

theorem overlapKeep_ok (siteArea minOverlap fpArea ia overlap : ℚ) (hfp : fpArea ≠ 0) :
    overlapKeep siteArea minOverlap fpArea ia overlap =
      .ok (decide (overlap > minOverlap ∨ (siteArea / fpArea > 1 ∧ ia / fpArea > minOverlap))) := by
  unfold overlapKeep pydiv
  split
  · rename_i h1
    simp [h1]
  · rename_i h1
    simp only [if_neg hfp]
    split
    · rename_i h2
      simp [h1, h2]
    · rename_i h2
      simp [h1, h2]

theorem filter_overlap_eq_spec {α : Type} (siteArea minOverlap : ℚ)
    (scenes : List (OvScene α)) (hsite : siteArea ≠ 0)
    (hfp : ∀ s ∈ scenes, s.footprintArea ≠ 0) :
    filter_overlap siteArea minOverlap scenes =
      .ok (filter_overlap_spec siteArea minOverlap scenes) := by
  induction scenes with
  | nil => rfl
  | cons scene rest ih =>
    have hscene : scene.footprintArea ≠ 0 := hfp scene (List.mem_cons_self _ _)
    have ihr := ih (fun s hs => hfp s (List.mem_cons_of_mem _ hs))
    unfold filter_overlap
    cases hi : scene.interArea with
    | some ia =>
      have hk := overlapKeep_ok siteArea minOverlap scene.footprintArea ia (ia / siteArea) hscene
      by_cases hc : (ia / siteArea > minOverlap ∨
          (siteArea / scene.footprintArea > 1 ∧ ia / scene.footprintArea > minOverlap))
      · simp [hi, pydiv, hsite, hk, ihr, filter_overlap_spec, List.filter_cons, specKeep, hc]
      · simp [hi, pydiv, hsite, hk, ihr, filter_overlap_spec, List.filter_cons, specKeep, hc]
    | none =>
      have hk := overlapKeep_ok siteArea minOverlap scene.footprintArea 0 0 hscene
      simp only [zero_div, gt_iff_lt] at hk
      by_cases hc : (minOverlap < 0 ∨ (1 < siteArea / scene.footprintArea ∧ minOverlap < 0))
      · simp [hi, hk, ihr, filter_overlap_spec, List.filter_cons, specKeep, hc, zero_div]
      · simp [hi, hk, ihr, filter_overlap_spec, List.filter_cons, specKeep, hc, zero_div]

/-- C1: for every list of scenes whose footprints all have positive area,
every area-of-interest geometry with positive area and every
`min_overlap` in `[0,1]`, `_filter_overlap` retains a scene iff
`overlap > min_overlap` or (`aoi_area / footprint_area > 1` and
`intersection_area / footprint_area > min_overlap`), where
`overlap = intersection_area / aoi_area` and both are `0` when the
footprint does not intersect the area of interest; retained scenes are
annotated with `overlap * 100` and not otherwise modified. -/
theorem overlap_filter_retention {α : Type} (siteArea minOverlap : ℚ)
    (scenes : List (OvScene α)) (hsite : 0 < siteArea)
    (hmin0 : 0 ≤ minOverlap) (hmin1 : minOverlap ≤ 1)
    (hfp : ∀ s ∈ scenes, 0 < s.footprintArea) :
    filter_overlap siteArea minOverlap scenes =
      .ok (filter_overlap_spec siteArea minOverlap scenes) :=
  filter_overlap_eq_spec siteArea minOverlap scenes (ne_of_gt hsite)
    (fun s hs => ne_of_gt (hfp s hs))

/-- Witness for C1 at a concrete input: area of interest of area 2,
one scene of footprint area 1 intersecting it with area 1,
`min_overlap = 1/2`. -/
theorem overlap_filter_retention_witness :
    filter_overlap (α := Unit) 2 (1 / 2) [⟨(), 1, some 1, none⟩] =
      .ok (filter_overlap_spec 2 (1 / 2) [⟨(), 1, some 1, none⟩]) :=
  overlap_filter_retention 2 (1 / 2) [⟨(), 1, some 1, none⟩]
    (by norm_num) (by norm_num) (by norm_num)
    (by intro s hs; rw [List.mem_singleton] at hs; subst hs; norm_num)

/-- Counterexample to C1 as stated (without the positive-footprint
restriction): with a positive-area area of interest and a scene whose
footprint has zero area and does not intersect it, `_filter_overlap`
raises `ZeroDivisionError` instead of returning the described list. -/
theorem overlap_filter_retention_cex :
    ¬ (filter_overlap (α := Unit) 1 (1 / 2) [⟨(), 0, none, none⟩] =
        .ok (filter_overlap_spec 1 (1 / 2) [⟨(), 0, none, none⟩])) := by
  intro h
  rw [show filter_overlap (α := Unit) 1 (1 / 2) [⟨(), 0, none, none⟩] =
      .error .zeroDivisionError by norm_num [filter_overlap, pydiv, overlapKeep]] at h
  exact Except.noConfusion h

/-- C2 (code divergence): `_filter_overlap` has no explicit guard on its
divisions: a zero-area footprint (first conjunct) or a zero-area area of
interest (second conjunct) makes it raise `ZeroDivisionError` instead of
treating the degenerate geometry as no-match. -/
theorem overlap_filter_divzero_crash :
    filter_overlap (α := Unit) 1 (1 / 1000) [⟨(), 0, some 0, none⟩] =
      .error .zeroDivisionError ∧
    filter_overlap (α := Unit) 0 (1 / 1000) [⟨(), 4, some 0, none⟩] =
      .error .zeroDivisionError := by
  constructor <;> norm_num [filter_overlap, pydiv, overlapKeep]

/-- A scene record as used by `_merge_scenes`, `_filter_existing` and
`download_all`: unique id, title (filename stem) and download URL. -/
structure Scene where
  id : String
  title : String
  url : String
deriving DecidableEq

/-- `_merge_scenes`: `existing_ids` is computed from `scenes1` once, then
every scene of `scenes2` whose id is not among them is appended. -/
def merge_scenes (scenes1 scenes2 : List Scene) : List Scene :=
  let existing_ids := scenes1.map Scene.id
  scenes1 ++ scenes2.filter (fun s => decide (s.id ∉ existing_ids))

/-- `_filter_existing`: keep the scenes whose `<title>.zip` exists in none
of the data directories nor the download directory; `isfile dir name`
is the oracle for `os.path.isfile(os.path.join(dir, name))`. -/
def filter_existing (isfile : String → String → Bool)
    (dataDirs : List String) (downloadDir : String) (scenes : List Scene) : List Scene :=
  let dirs := dataDirs ++ [downloadDir]
  scenes.filter (fun s => !(dirs.any (fun d => isfile d (s.title ++ ".zip"))))

/-- C3: for collections with pairwise-distinct ids and new lists with
pairwise-distinct ids, `_merge_scenes` keeps the original collection as a
prefix unchanged, appends exactly the new scenes whose id is not already
present (in order), yields pairwise-distinct ids again, and is the
identity when every new id is already present. -/
theorem merge_scenes_correct (s1 s2 : List Scene)
    (h1 : (s1.map Scene.id).Pairwise (· ≠ ·))
    (h2 : (s2.map Scene.id).Pairwise (· ≠ ·)) :
    (merge_scenes s1 s2).take s1.length = s1 ∧
    (merge_scenes s1 s2).drop s1.length =
      s2.filter (fun s => decide (s.id ∉ s1.map Scene.id)) ∧
    ((merge_scenes s1 s2).map Scene.id).Pairwise (· ≠ ·) ∧
    ((∀ s ∈ s2, s.id ∈ s1.map Scene.id) → merge_scenes s1 s2 = s1) := by
  refine ⟨?_, ?_, ?_, ?_⟩
  · simpa [merge_scenes] using List.take_left s1 _
  · simpa [merge_scenes] using List.drop_left s1 _
  · rw [merge_scenes]
    rw [List.map_append, List.pairwise_append]
    refine ⟨h1, ?_, ?_⟩
    · exact h2.sublist ((List.filter_sublist s2).map Scene.id)
    · intro a ha b hb
      rcases List.mem_map.1 hb with ⟨s, hs, rfl⟩
      have := List.of_mem_filter hs
      simp only [decide_eq_true_eq] at this
      intro hab
      exact this (hab ▸ ha)
  · intro hall
    rw [merge_scenes]
    have : s2.filter (fun s => decide (s.id ∉ s1.map Scene.id)) = [] := by
      rw [List.filter_eq_nil]
      intro s hs
      simp only [decide_eq_true_eq, Decidable.not_not]
      exact hall s hs
    rw [this, List.append_nil]

/-- Witness for C3 at a concrete input: one existing scene with id "a",
new list with a duplicate of "a" and a fresh id "b". -/
theorem merge_scenes_correct_witness :
    (merge_scenes [⟨"a", "t", "u"⟩] [⟨"a", "t2", "u2"⟩, ⟨"b", "t3", "u3"⟩]).take 1 =
      [⟨"a", "t", "u"⟩] ∧
    ((merge_scenes [⟨"a", "t", "u"⟩] [⟨"a", "t2", "u2"⟩, ⟨"b", "t3", "u3"⟩]).map
      Scene.id).Pairwise (· ≠ ·) := by
  have h := merge_scenes_correct [⟨"a", "t", "u"⟩] [⟨"a", "t2", "u2"⟩, ⟨"b", "t3", "u3"⟩]
    (by decide) (by decide)
  exact ⟨h.1, h.2.2.1⟩

/-- Counterexample to C3 as stated: when the new list itself repeats an
id ("a" twice) that is absent from the (distinct-id) collection, both
copies are appended, so the merged result does not have pairwise-distinct
ids. -/
theorem merge_scenes_dup_cex :
    ¬ (((merge_scenes [] [⟨"a", "t1", "u1"⟩, ⟨"a", "t2", "u2"⟩]).map
        Scene.id).Pairwise (· ≠ ·)) := by
  decide

/-- C5: `_filter_existing` returns exactly the scenes, in order, whose
`<title>.zip` exists as a file in none of the registered directories
(data directories plus download directory). -/
theorem filter_existing_correct (isfile : String → String → Bool)
    (dataDirs : List String) (downloadDir : String) (scenes : List Scene) :
    (filter_existing isfile dataDirs downloadDir scenes).Sublist scenes ∧
    ∀ s, s ∈ filter_existing isfile dataDirs downloadDir scenes ↔
      (s ∈ scenes ∧ ∀ d ∈ dataDirs ++ [downloadDir], isfile d (s.title ++ ".zip") = false) := by
  refine ⟨List.filter_sublist scenes, fun s => ?_⟩
  rw [filter_existing, List.mem_filter]
  constructor
  · rintro ⟨hs, hb⟩
    refine ⟨hs, fun d hd => ?_⟩
    rw [Bool.not_eq_true', List.any_eq_false] at hb
    exact Bool.not_eq_true _ ▸ hb d hd
  · rintro ⟨hs, hall⟩
    refine ⟨hs, ?_⟩
    rw [Bool.not_eq_true', List.any_eq_false]
    intro d hd
    rw [hall d hd]
    exact Bool.false_ne_true

/-- Outcome of the archive check `_is_valid` runs on a downloaded file,
as answered by the zipfile/zlib libraries: `testzip` may report a corrupt
member or run clean; `ZipFile(...)` or `testzip` may raise the two
exception types `_is_valid` catches (`BadZipfile`, `zlib.error`); and the
check may also raise an exception of any other type (`RuntimeError` for
an encrypted member, `NotImplementedError` for an unsupported compression
method, `OSError` on a read error), which `_is_valid` does not catch. -/
inductive ZipCheck where
  | openRaisesBadZip
  | testRaisesZlib
  | testRaisesBadZip
  | testRaisesOther (e : PyErr)
  | corruptMember
  | intact
deriving DecidableEq

/-- `_is_valid`: a file not above `minsize` is invalid before the archive
is even opened; otherwise the file is valid iff `testzip` reports no
corrupt member, where a `zlib.error` (inner handler) and a `BadZipfile`
(outer handler) are caught and count as corrupt, while an exception of
any other type raised by the check propagates out of `_is_valid`. -/
def is_valid (minsize size : ℕ) (z : ZipCheck) : Except PyErr Bool :=
  if ¬ size > minsize then .ok false
  else
    match z with
    | .openRaisesBadZip => .ok false
    | .testRaisesZlib => .ok false
    | .testRaisesBadZip => .ok false
    | .testRaisesOther e => .error e
    | .corruptMember => .ok false
    | .intact => .ok true

/-- Network outcome of one scene's download request in `download_all`:
connection error, or a response with optional Content-Length, actual
streamed file size, and the archive-check outcome of the stored file. -/
inductive DlResponse where
  | connError
  | resp (contentLength : Option ℕ) (fileSize : ℕ) (zip : ZipCheck)
deriving DecidableEq

/-- State threaded through the `download_all` loop: the success and
failed lists, the set of paths existing on disk, and a log of every path
opened for writing. -/
structure DlState where
  success : List String
  failed : List String
  files : List String
  written : List String
deriving DecidableEq

def pathJoin (dir name : String) : String := dir ++ "/" ++ name

def scenePath (dir : String) (s : Scene) : String := pathJoin dir (s.title ++ ".zip")

/-- Creating a file at `p`: afterwards `p` exists (a path exists once). -/
def fsWrite (files : List String) (p : String) : List String :=
  if p ∈ files then files else files ++ [p]

/-- `os.remove p`: afterwards `p` does not exist. -/
def fsRemove (files : List String) (p : String) : List String :=
  files.filter (fun q => decide (q ≠ p))

/-- One iteration of the `download_all` loop: skip on connection error,
missing Content-Length, or declared size below 1,000,000; otherwise
stream to `<dir>/<title>.zip`, verify with `_is_valid`, and either record
success or delete the file and record failure. An exception propagating
out of `_is_valid` escapes the loop body (which has no handler around the
check): the file stays on disk and neither list records it. -/
def dlStep (dir : String) (st : DlState) (scene : Scene) (r : DlResponse) :
    DlState × Option PyErr :=
  let path := scenePath dir scene
  match r with
  | .connError => (st, none)
  | .resp none _ _ => (st, none)
  | .resp (some cl) size z =>
    if cl < 1000000 then (st, none)
    else
      let files1 := fsWrite st.files path
      let written1 := st.written ++ [path]
      match is_valid 1000000 size z with
      | .error e =>
        ({ success := st.success, failed := st.failed,
           files := files1, written := written1 }, some e)
      | .ok true =>
        ({ success := st.success ++ [path], failed := st.failed,
           files := files1, written := written1 }, none)
      | .ok false =>
        ({ success := st.success, failed := st.failed ++ [path],
           files := fsRemove files1 path, written := written1 }, none)

/-- `download_all` over the scene collection, each scene paired with the
network outcome its request produces; an uncaught exception aborts the
whole loop with the state reached so far, and no summary dictionary is
returned for the batch. -/
def download_all (dir : String) :
    DlState → List (Scene × DlResponse) → DlState × Option PyErr
  | st, [] => (st, none)
  | st, it :: rest =>
    match dlStep dir st it.1 it.2 with
    | (st2, none) => download_all dir st2 rest
    | (st2, some e) => (st2, some e)

/-- Initial state: nothing downloaded yet, `files0` already on disk. -/
def initState (files0 : List String) : DlState := ⟨[], [], files0, []⟩

/-- The three skip conditions of the download loop: connection error,
missing Content-Length, declared length below 1,000,000. -/
def skipResp : DlResponse → Bool
  | .connError => true
  | .resp none _ _ => true
  | .resp (some cl) _ _ => decide (cl < 1000000)

theorem dlStep_skip (dir : String) (st : DlState) (s : Scene) (r : DlResponse)
    (h : skipResp r = true) : dlStep dir st s r = (st, none) := by
  cases r with
  | connError => rfl
  | resp cl size z =>
    cases cl with
    | none => rfl
    | some c =>
      simp only [skipResp, decide_eq_true_eq] at h
      simp [dlStep, h]

theorem dlStep_mem (dir : String) (st : DlState) (s : Scene) (r : DlResponse) (p : String)
    (h : scenePath dir s = p → skipResp r = true) :
    (p ∈ (dlStep dir st s r).1.success ↔ p ∈ st.success) ∧
    (p ∈ (dlStep dir st s r).1.failed ↔ p ∈ st.failed) ∧
    (p ∈ (dlStep dir st s r).1.written ↔ p ∈ st.written) ∧
    (p ∈ (dlStep dir st s r).1.files ↔ p ∈ st.files) := by
  cases r with
  | connError => exact ⟨Iff.rfl, Iff.rfl, Iff.rfl, Iff.rfl⟩
  | resp cl size z =>
    cases cl with
    | none => exact ⟨Iff.rfl, Iff.rfl, Iff.rfl, Iff.rfl⟩
    | some c =>
      by_cases hc : c < 1000000
      · simp [dlStep, hc]
      · have hq : scenePath dir s ≠ p := by
          intro he
          have := h he
          simp only [skipResp, decide_eq_true_eq] at this
          exact hc this
        cases hv : is_valid 1000000 size z with
        | error e =>
          simp [dlStep, hc, hv, fsWrite, List.mem_append, Ne.symm hq]
          split <;> simp [List.mem_append, Ne.symm hq]
        | ok b =>
          cases b with
          | true =>
            simp [dlStep, hc, hv, fsWrite, List.mem_append, Ne.symm hq]
            split <;> simp [List.mem_append, Ne.symm hq]
          | false =>
            simp [dlStep, hc, hv, fsWrite, fsRemove, List.mem_append,
              List.mem_filter, Ne.symm hq]
            split <;> simp [List.mem_append, Ne.symm hq]

theorem download_all_append_ok (dir : String) (st st1 : DlState)
    (l1 l2 : List (Scene × DlResponse)) (h : download_all dir st l1 = (st1, none)) :
    download_all dir st (l1 ++ l2) = download_all dir st1 l2 := by
  induction l1 generalizing st with
  | nil =>
    simp only [download_all] at h
    obtain ⟨rfl, -⟩ := Prod.mk.injEq .. ▸ h
    rfl
  | cons it rest ih =>
    simp only [download_all, List.cons_append] at h ⊢
    cases hs : dlStep dir st it.1 it.2 with
    | mk st2 oe =>
      rw [hs] at h
      cases oe with
      | none => exact ih st2 h
      | some e => simp at h

theorem download_all_append_err (dir : String) (st st1 : DlState) (e : PyErr)
    (l1 l2 : List (Scene × DlResponse)) (h : download_all dir st l1 = (st1, some e)) :
    download_all dir st (l1 ++ l2) = (st1, some e) := by
  induction l1 generalizing st with
  | nil => simp [download_all] at h
  | cons it rest ih =>
    simp only [download_all, List.cons_append] at h ⊢
    cases hs : dlStep dir st it.1 it.2 with
    | mk st2 oe =>
      rw [hs] at h
      cases oe with
      | none => exact ih st2 h
      | some e2 => exact h

theorem download_all_frame (dir : String) (p : String) (st : DlState)
    (items : List (Scene × DlResponse))
    (h : ∀ it ∈ items, scenePath dir it.1 = p → skipResp it.2 = true) :
    (p ∈ (download_all dir st items).1.success ↔ p ∈ st.success) ∧
    (p ∈ (download_all dir st items).1.failed ↔ p ∈ st.failed) ∧
    (p ∈ (download_all dir st items).1.written ↔ p ∈ st.written) ∧
    (p ∈ (download_all dir st items).1.files ↔ p ∈ st.files) := by
  induction items generalizing st with
  | nil => exact ⟨Iff.rfl, Iff.rfl, Iff.rfl, Iff.rfl⟩
  | cons it rest ih =>
    have hstep := dlStep_mem dir st it.1 it.2 p (h it (List.mem_cons_self _ _))
    cases hs : dlStep dir st it.1 it.2 with
    | mk st2 oe =>
      rw [hs] at hstep
      cases oe with
      | none =>
        have hrest := ih st2 (fun x hx => h x (List.mem_cons_of_mem _ hx))
        simp only [download_all, hs]
        exact ⟨hrest.1.trans hstep.1, hrest.2.1.trans hstep.2.1,
          hrest.2.2.1.trans hstep.2.2.1, hrest.2.2.2.trans hstep.2.2.2⟩
      | some e =>
        simp only [download_all, hs]
        exact hstep

/-- C7: a scene whose request raises a connection error, whose response
has no Content-Length, or whose declared length is below 1,000,000 bytes
is skipped: the loop state is unchanged for it and no exception occurs
(so the loop just moves on), and if every scene at a path has a skip
outcome, the path is in neither result list, is never opened for
writing, and exists on disk exactly when it already did before the run. -/
theorem download_skip_scenes :
    (∀ (dir : String) (st : DlState) (s : Scene) (r : DlResponse),
      skipResp r = true → dlStep dir st s r = (st, none)) ∧
    (∀ (dir : String) (files0 : List String) (items : List (Scene × DlResponse)) (p : String),
      (∀ it ∈ items, scenePath dir it.1 = p → skipResp it.2 = true) →
      p ∉ (download_all dir (initState files0) items).1.success ∧
      p ∉ (download_all dir (initState files0) items).1.failed ∧
      p ∉ (download_all dir (initState files0) items).1.written ∧
      (p ∈ (download_all dir (initState files0) items).1.files ↔ p ∈ files0)) := by
  refine ⟨dlStep_skip, fun dir files0 items p h => ?_⟩
  have hf := download_all_frame dir p (initState files0) items h
  refine ⟨fun hx => ?_, fun hx => ?_, fun hx => ?_, hf.2.2.2⟩
  · exact (List.not_mem_nil p) (hf.1.mp hx)
  · exact (List.not_mem_nil p) (hf.2.1.mp hx)
  · exact (List.not_mem_nil p) (hf.2.2.1.mp hx)

/-- Witness for C7: three scenes with title "t" (path "dl/t.zip"), one per
skip condition; the path ends in no list, is never written, and the disk
is unchanged. -/
theorem download_skip_scenes_witness :
    "dl/t.zip" ∉ (download_all "dl" (initState ["dl/old.zip"])
      [(⟨"i1", "t", "u1"⟩, .connError),
       (⟨"i2", "t", "u2"⟩, .resp none 0 .intact),
       (⟨"i3", "t", "u3"⟩, .resp (some 900000) 900000 .intact)]).1.success ∧
    "dl/t.zip" ∉ (download_all "dl" (initState ["dl/old.zip"])
      [(⟨"i1", "t", "u1"⟩, .connError),
       (⟨"i2", "t", "u2"⟩, .resp none 0 .intact),
       (⟨"i3", "t", "u3"⟩, .resp (some 900000) 900000 .intact)]).1.failed ∧
    "dl/t.zip" ∉ (download_all "dl" (initState ["dl/old.zip"])
      [(⟨"i1", "t", "u1"⟩, .connError),
       (⟨"i2", "t", "u2"⟩, .resp none 0 .intact),
       (⟨"i3", "t", "u3"⟩, .resp (some 900000) 900000 .intact)]).1.written ∧
    ("dl/t.zip" ∈ (download_all "dl" (initState ["dl/old.zip"])
      [(⟨"i1", "t", "u1"⟩, .connError),
       (⟨"i2", "t", "u2"⟩, .resp none 0 .intact),
       (⟨"i3", "t", "u3"⟩, .resp (some 900000) 900000 .intact)]).1.files ↔
      "dl/t.zip" ∈ ["dl/old.zip"]) :=
  download_skip_scenes.2 "dl" ["dl/old.zip"]
    [(⟨"i1", "t", "u1"⟩, .connError),
     (⟨"i2", "t", "u2"⟩, .resp none 0 .intact),
     (⟨"i3", "t", "u3"⟩, .resp (some 900000) 900000 .intact)] "dl/t.zip"
    (by decide)

/-- A Python dict with string keys and values, as built by `_parse_json`. -/
abbrev PyDict := List (String × String)

/-- `item[k] = v` on a dict: overwrite in place if the key exists,
append otherwise. -/
def dictSet (d : PyDict) (k v : String) : PyDict :=
  if (d.map Prod.fst).contains k then
    d.map (fun kv => if kv.1 = k then (k, v) else kv)
  else d ++ [(k, v)]

/-- `item[k]` lookup on a dict. -/
def dictGet (d : PyDict) (k : String) : Option String :=
  (d.find? (fun kv => decide (kv.1 = k))).map Prod.snd

/-- One `entry` object of a search response page: id, title, the list of
link hrefs, and the three typed metadata groups of name/content pairs. -/
structure RawEntry where
  id : String
  title : String
  linkHrefs : List String
  strData : List (String × String)
  dateData : List (String × String)
  intData : List (String × String)
deriving DecidableEq

/-- One entry of `_parse_json`: base keys id/title/url (`link[0].href`,
`IndexError` when there is no link), then the str, date and int metadata
merged over them. -/
def parseEntry (e : RawEntry) : Except PyErr PyDict :=
  match e.linkHrefs with
  | [] => .error .indexError
  | href :: _ =>
    let base : PyDict := [("id", e.id), ("title", e.title), ("url", href)]
    .ok ((e.strData ++ e.dateData ++ e.intData).foldl (fun d kv => dictSet d kv.1 kv.2) base)

/-- Shape of a successfully decoded JSON response body. -/
inductive ParsedJson where
  | noFeed
  | feedNoEntry
  | feedEntries (es : List RawEntry)
deriving DecidableEq

/-- `_parse_json`: `obj['feed']` raises `KeyError` when absent; a feed
without `entry` is an empty result; entries (already normalized to a
list) are parsed one by one. -/
def parse_json : ParsedJson → Except PyErr (List PyDict)
  | .noFeed => .error .keyError
  | .feedNoEntry => .ok []
  | .feedEntries es => es.mapM parseEntry

/-- Body of an HTTP response: undecodable JSON or a decoded document. -/
inductive JsonBody where
  | unparsable
  | parsed (j : ParsedJson)
deriving DecidableEq

/-- Outcome of one `requests.get` in `_search_request`. -/
inductive HttpOutcome where
  | connError
  | response (status : ℕ) (body : JsonBody)
deriving DecidableEq

/-- `_search_request`: network errors and undecodable JSON are
`requests.exceptions.RequestException`s (for the JSON decoding this is
the behaviour of requests since 2.27) and caught as an empty page; a
non-2xx status returns an empty page; otherwise the page is parsed and
every footprint replaced by `multipolygon2list(...)[0]` (`fpNorm`),
whose exceptions, like `_parse_json`'s `KeyError`, are not caught. -/
def searchRequest (fpNorm : String → Except PyErr String) (out : HttpOutcome) :
    Except PyErr (List PyDict) :=
  match out with
  | .connError => .ok []
  | .response status body =>
    if status / 100 = 2 then
      match body with
      | .unparsable => .ok []
      | .parsed j =>
        match parse_json j with
        | .error e => .error e
        | .ok items =>
          items.mapM (fun item =>
            match dictGet item "footprint" with
            | none => .error .keyError
            | some fp =>
              match fpNorm fp with
              | .error e => .error e
              | .ok nf => .ok (dictSet item "footprint" nf))
    else .ok []

/-- The pagination loop of `search` for one geometry: request the page at
the current start offset; a nonempty page is appended and the offset
advanced by 100; a page with fewer than 100 entries ends the loop.
The result records the requested offsets in order; `none` means the fuel
ran out with the loop still going; an uncaught exception of the page
request aborts the loop. -/
def searchPagesLoop {σ : Type} (pages : ℕ → Except PyErr (List σ)) :
    ℕ → ℕ → List ℕ → List σ → Option (List ℕ × Except PyErr (List σ))
  | 0, _, _, _ => none
  | fuel + 1, index, offs, scenes =>
    match pages index with
    | .error e => some (offs ++ [index], .error e)
    | .ok subscenes =>
      let scenes2 := if 0 < subscenes.length then scenes ++ subscenes else scenes
      let index2 := if 0 < subscenes.length then index + 100 else index
      if subscenes.length < 100 then some (offs ++ [index], .ok scenes2)
      else searchPagesLoop pages fuel index2 (offs ++ [index]) scenes2

theorem searchPagesLoop_run {σ : Type} (pages : ℕ → Except PyErr (List σ))
    (f : ℕ → List σ) (n : ℕ)
    (hok : ∀ k, k ≤ n → pages (100 * k) = .ok (f k))
    (hfull : ∀ k, k < n → (f k).length = 100)
    (hshort : (f n).length < 100) :
    ∀ (fuel k : ℕ) (offs : List ℕ) (acc : List σ), k ≤ n → n - k < fuel →
      searchPagesLoop pages fuel (100 * k) offs acc =
        some (offs ++ (List.range' k (n + 1 - k)).map (fun j => 100 * j),
          .ok (acc ++ (List.range' k (n + 1 - k)).flatMap f)) := by
  intro fuel
  induction fuel with
  | zero => intro k offs acc hk hf; omega
  | succ fuel ih =>
    intro k offs acc hk hf
    by_cases hkn : k = n
    · subst hkn
      rw [searchPagesLoop, hok k le_rfl]
      have h1 : k + 1 - k = 1 := by omega
      simp only [h1, List.range'_one, List.map_cons, List.map_nil, List.flatMap_cons,
        List.flatMap_nil, List.append_nil, if_pos hshort]
      by_cases h0 : 0 < (f k).length
      · simp [h0]
      · have : f k = [] := List.eq_nil_of_length_eq_zero (by omega)
        simp [h0, this]
    · have hkn2 : k < n := lt_of_le_of_ne hk hkn
      rw [searchPagesLoop, hok k (le_of_lt hkn2)]
      have hl : (f k).length = 100 := hfull k hkn2
      have h0 : 0 < (f k).length := by omega
      have hns : ¬ (f k).length < 100 := by omega
      simp only [if_pos h0, if_neg hns]
      rw [show 100 * k + 100 = 100 * (k + 1) by ring]
      rw [ih (k + 1) (offs ++ [100 * k]) (acc ++ f k) (by omega) (by omega)]
      have hr : List.range' k (n + 1 - k) = k :: List.range' (k + 1) (n - k) := by
        rw [show n + 1 - k = (n - k) + 1 by omega, List.range'_succ]
      have hr2 : n + 1 - (k + 1) = n - k := by omega
      simp [hr, hr2, List.flatMap_cons]

theorem searchPagesLoop_long {σ : Type} (pages : ℕ → Except PyErr (List σ)) :
    ∀ (fuel k : ℕ) (offs : List ℕ) (acc : List σ),
      (∀ j, k ≤ j → j < k + fuel → ∃ g : List σ, pages (100 * j) = .ok g ∧ 100 ≤ g.length) →
      searchPagesLoop pages fuel (100 * k) offs acc = none := by
  intro fuel
  induction fuel with
  | zero => intro k offs acc h; rfl
  | succ fuel ih =>
    intro k offs acc h
    obtain ⟨g, hg, hlen⟩ := h k le_rfl (by omega)
    rw [searchPagesLoop, hg]
    have h0 : 0 < g.length := by omega
    have hns : ¬ g.length < 100 := by omega
    simp only [if_pos h0, if_neg hns]
    rw [show 100 * k + 100 = 100 * (k + 1) by ring]
    exact ih (k + 1) _ _ (fun j hj1 hj2 => h j (by omega) (by omega))

/-- C4: with pages of exactly 100 entries up to the first page with fewer
than 100 (possibly zero) entries, the pagination loop requests exactly
the offsets 0, 100, ..., 100n (one request per page, so an empty first
page means one request and no scenes), collects every page's entries in
order, and terminates there; with no short page it never terminates
(no page cap), whatever the fuel bound. -/
theorem search_pagination {σ : Type} (pages : ℕ → Except PyErr (List σ))
    (f : ℕ → List σ) (n : ℕ)
    (hok : ∀ k, k ≤ n → pages (100 * k) = .ok (f k))
    (hfull : ∀ k, k < n → (f k).length = 100)
    (hshort : (f n).length < 100) :
    (∀ fuel, n < fuel →
      searchPagesLoop pages fuel 0 [] [] =
        some ((List.range (n + 1)).map (fun j => 100 * j),
          .ok ((List.range (n + 1)).flatMap f))) ∧
    (∀ m (g : ℕ → List σ), (∀ j, j < m → pages (100 * j) = .ok (g j) ∧ 100 ≤ (g j).length) →
      searchPagesLoop pages m 0 [] [] = none) := by
  constructor
  · intro fuel hfuel
    have := searchPagesLoop_run pages f n hok hfull hshort fuel 0 [] [] (by omega) (by omega)
    simpa [List.range_eq_range'] using this
  · intro m g hg
    have := searchPagesLoop_long pages m 0 [] []
      (fun j hj1 hj2 => ⟨g j, (hg j (by omega)).1, (hg j (by omega)).2⟩)
    simpa using this

/-- Concrete page oracle for the C4 witness: a full first page, then an
empty one. -/
def pagesW : ℕ → Except PyErr (List Scene) :=
  fun i => .ok (if i = 0 then List.replicate 100 ⟨"i", "t", "u"⟩ else [])

/-- Page contents of `pagesW` by page number. -/
def fW : ℕ → List Scene :=
  fun k => if k = 0 then List.replicate 100 ⟨"i", "t", "u"⟩ else []

/-- Witness for C4: one full page then an empty page gives requests at
offsets 0 and 100 and the 100 scenes of the first page. -/
theorem search_pagination_witness :
    searchPagesLoop pagesW 2 0 [] [] =
      some ((List.range 2).map (fun j => 100 * j), .ok ((List.range 2).flatMap fW)) :=
  (search_pagination pagesW fW 1
    (by intro k hk; interval_cases k <;> rfl)
    (by intro k hk; interval_cases k; simp [fW])
    (by simp [fW])).1 2 (by omega)

/-- The transient request errors of C6: connection failure, non-2xx
status, undecodable JSON body. -/
def transientOutcome : HttpOutcome → Prop :=
  fun o => o = .connError ∨
    (∃ status body, o = .response status body ∧ status / 100 ≠ 2) ∨
    (∃ status, o = .response status .unparsable)

/-- C6: each transient request error (connection failure, non-2xx
response, undecodable JSON body) makes `_search_request` return an empty
page instead of raising, and a search whose requests all fail this way
still ends normally (one request, empty result) rather than aborting. -/
theorem search_request_graceful (fpNorm : String → Except PyErr String) :
    searchRequest fpNorm .connError = .ok [] ∧
    (∀ status body, status / 100 ≠ 2 →
      searchRequest fpNorm (.response status body) = .ok []) ∧
    (∀ status, searchRequest fpNorm (.response status .unparsable) = .ok []) ∧
    (∀ outs : ℕ → HttpOutcome, (∀ i, transientOutcome (outs i)) → ∀ fuel,
      searchPagesLoop (fun i => searchRequest fpNorm (outs i)) (fuel + 1) 0 [] [] =
        some ([0], .ok [])) := by
  refine ⟨rfl, ?_, ?_, ?_⟩
  · intro status body h
    simp [searchRequest, h]
  · intro status
    by_cases h2 : status / 100 = 2 <;> simp [searchRequest, h2]
  · intro outs h fuel
    have h0 : searchRequest fpNorm (outs 0) = .ok [] := by
      rcases h 0 with hc | ⟨status, body, he, hne⟩ | ⟨status, he⟩
      · rw [hc]; rfl
      · rw [he]; simp [searchRequest, hne]
      · rw [he]; by_cases h2 : status / 100 = 2 <;> simp [searchRequest, h2]
    rw [searchPagesLoop, h0]
    simp

/-- Identity footprint normalization for the C6 witness. -/
def fpW : String → Except PyErr String := fun s => .ok s

/-- All-failing request oracle for the C6 witness. -/
def outsW : ℕ → HttpOutcome := fun _ => .connError

/-- Witness for C6: a connection error, a 500 response and an
unparsable 200 response each give an empty page, and a search over
failing requests ends normally after one request. -/
theorem search_request_graceful_witness :
    searchRequest fpW .connError = .ok [] ∧
    searchRequest fpW (.response 500 (.parsed .feedNoEntry)) = .ok [] ∧
    searchRequest fpW (.response 200 .unparsable) = .ok [] ∧
    searchPagesLoop (fun i => searchRequest fpW (outsW i)) 1 0 [] [] = some ([0], .ok []) :=
  ⟨(search_request_graceful fpW).1,
   (search_request_graceful fpW).2.1 500 (.parsed .feedNoEntry) (by decide),
   (search_request_graceful fpW).2.2.1 200,
   (search_request_graceful fpW).2.2.2 outsW (fun _ => Or.inl rfl) 0⟩

/-- A date argument of `search`: a datetime/date object (formats
directly via strftime) or a string (strptime-parsed; `none` models a
malformed string raising ValueError). The stored string is the resulting
formatted timestamp. -/
inductive DateArg where
  | obj (formatted : String)
  | raw (parsed : Option String)
deriving DecidableEq

def fmtDate : DateArg → Except PyErr String
  | .obj s => .ok s
  | .raw (some s) => .ok s
  | .raw none => .error .valueError

def allowedPlatforms : List String := ["S1A*", "S1B*", "S2A*", "S2B*", "S3A*", "S3B*"]

def allowedDateTypes : List String := ["beginPosition", "endPosition", "ingestionDate"]

/-- The argument-checking prologue of `search`, run before any request:
platform whitelist; then, when any date is given, a missing start date
raises, a missing end date defaults to now, the date type is checked and
both dates are formatted into the `date_filtering` fragment. -/
def searchPrelude (platform : String) (startd endd : Option DateArg)
    (dateType : String) (now : String) : Except PyErr String :=
  if platform ∉ allowedPlatforms then
    .error (.exception "platform parameter has to be S1A*, S1B*, S2A*, S2B*, S3A* or S3B*")
  else
    match startd, endd with
    | none, none => .ok ""
    | none, some _ => .error (.exception "Please specify also a starting date!")
    | some sd, endd2 =>
      let ed := endd2.getD (.obj now)
      if dateType ∉ allowedDateTypes then
        .error (.exception
          "dateType parameter must be one of beginPosition, endPosition, ingestionDate")
      else
        match fmtDate sd with
        | .error e => .error e
        | .ok s =>
          match fmtDate ed with
          | .error e => .error e
          | .ok e2 => .ok (" AND " ++ dateType ++ ":[" ++ s ++ " TO " ++ e2 ++ "]")

/-- `search` split at the network boundary: the prologue runs first and a
failure there raises with an empty request log, whatever the network
phase `body` (pagination, filtering, merging) would have done with the
`date_filtering` fragment. -/
def search_model {β : Type} (platform : String) (startd endd : Option DateArg)
    (dateType : String) (now : String)
    (body : String → List ℕ × Except PyErr β) : List ℕ × Except PyErr β :=
  match searchPrelude platform startd endd dateType now with
  | .error e => ([], .error e)
  | .ok df => body df

/-- Argument shape of `set_geometries`. -/
inductive GeomInput where
  | list (gs : List String)
  | str (g : String)
  | other

/-- The validation tail of `set_geometries`: only `self.__geometries[0]`
is passed to `wkt2vector` (`IndexError` on an empty list, re-raised
`Exception` when it does not parse). -/
def checkFirstGeometry (validWkt : String → Bool) (gs : List String) :
    Except PyErr (List String) :=
  match gs with
  | [] => .error .indexError
  | g :: _ =>
    if validWkt g then .ok gs
    else .error (.exception "The first geometry is not valid!")

/-- `set_geometries`: a string becomes a one-element list, a non-list
non-string raises, then only the first geometry is validated. -/
def set_geometries (validWkt : String → Bool) : GeomInput → Except PyErr (List String)
  | .other => .error (.exception "geometries parameter needs to be a list or a string")
  | .list gs => checkFirstGeometry validWkt gs
  | .str g => checkFirstGeometry validWkt [g]

/-- C9 (amended): configuration errors are fatal before any network
request: an unknown platform and an end date without a start date each
raise with an empty request log whatever the network phase would do; a
start date alone defaults the end to now; `set_geometries` raises when
the first supplied geometry is invalid, and accepts the list whenever
the first geometry is valid (later geometries are not validated). -/
theorem config_errors_fatal :
    (∀ (β : Type) (platform : String) (startd endd : Option DateArg)
       (dateType now : String) (body : String → List ℕ × Except PyErr β),
      platform ∉ allowedPlatforms →
      search_model platform startd endd dateType now body =
        ([], .error (.exception
          "platform parameter has to be S1A*, S1B*, S2A*, S2B*, S3A* or S3B*"))) ∧
    (∀ (β : Type) (platform : String) (endd : DateArg) (dateType now : String)
       (body : String → List ℕ × Except PyErr β),
      platform ∈ allowedPlatforms →
      search_model platform none (some endd) dateType now body =
        ([], .error (.exception "Please specify also a starting date!"))) ∧
    (∀ (platform startFmt dateType now : String),
      platform ∈ allowedPlatforms → dateType ∈ allowedDateTypes →
      searchPrelude platform (some (.obj startFmt)) none dateType now =
        .ok (" AND " ++ dateType ++ ":[" ++ startFmt ++ " TO " ++ now ++ "]")) ∧
    (∀ (validWkt : String → Bool) (g : String) (rest : List String),
      validWkt g = false →
      set_geometries validWkt (.list (g :: rest)) =
        .error (.exception "The first geometry is not valid!")) ∧
    (∀ (validWkt : String → Bool) (g : String) (rest : List String),
      validWkt g = true →
      set_geometries validWkt (.list (g :: rest)) = .ok (g :: rest)) := by
  refine ⟨?_, ?_, ?_, ?_, ?_⟩
  · intro β platform startd endd dateType now body h
    simp [search_model, searchPrelude, h]
  · intro β platform endd dateType now body h
    simp [search_model, searchPrelude, h]
  · intro platform startFmt dateType now h1 h2
    simp [searchPrelude, h1, h2, fmtDate]
  · intro validWkt g rest h
    simp [set_geometries, checkFirstGeometry, h]
  · intro validWkt g rest h
    simp [set_geometries, checkFirstGeometry, h]

/-- Witness for C9: concrete bad platform, end-only date, start-only
date, and invalid first geometry. -/
theorem config_errors_fatal_witness :
    search_model (β := Unit) "S9X*" none none "beginPosition" "NOW"
      (fun _ => ([0], .ok ())) =
      ([], .error (.exception
        "platform parameter has to be S1A*, S1B*, S2A*, S2B*, S3A* or S3B*")) ∧
    search_model (β := Unit) "S1A*" none (some (.obj "E")) "beginPosition" "NOW"
      (fun _ => ([0], .ok ())) =
      ([], .error (.exception "Please specify also a starting date!")) ∧
    searchPrelude "S1A*" (some (.obj "S")) none "beginPosition" "NOW" =
      .ok (" AND " ++ "beginPosition" ++ ":[" ++ "S" ++ " TO " ++ "NOW" ++ "]") ∧
    set_geometries (fun _ => false) (.list ["B"]) =
      .error (.exception "The first geometry is not valid!") :=
  ⟨config_errors_fatal.1 Unit "S9X*" none none "beginPosition" "NOW" _ (by decide),
   config_errors_fatal.2.1 Unit "S1A*" (.obj "E") "beginPosition" "NOW" _ (by decide),
   config_errors_fatal.2.2.1 "S1A*" "S" "beginPosition" "NOW" (by decide) (by decide),
   config_errors_fatal.2.2.2.1 (fun _ => false) "B" [] rfl⟩

/-- Counterexample to C9 as stated: `set_geometries` does not raise for
every invalid supplied geometry: a list whose second geometry is invalid
under the validity oracle is accepted because only the first is tested. -/
theorem set_geometries_second_invalid_cex :
    set_geometries (fun s => decide (s = "G1")) (.list ["G1", "G2"]) = .ok ["G1", "G2"] ∧
    (fun s => decide (s = "G1")) "G2" = false := by
  constructor
  · simp [set_geometries, checkFirstGeometry]
  · decide

/-- Heap of the mutable list objects behind `SentinelDownloader`'s class
attributes: the `__scenes`, `__geometries` and `__data_dirs` lists are
created once when the class body runs, at fixed addresses. -/
structure ObjHeap where
  sceneLists : ℕ → List Scene
  strLists : ℕ → List String

def classScenesAddr : ℕ := 0

def classGeomsAddr : ℕ := 0

def classDataDirsAddr : ℕ := 1

/-- A `SentinelDownloader` instance: `__init__` assigns no list
attribute, so each reference is `none` (attribute lookup falls through
to the class attribute) until an instance assignment happens. -/
structure Session where
  scenesRef : Option ℕ
  geomsRef : Option ℕ
  dataDirsRef : Option ℕ
deriving DecidableEq

/-- A freshly constructed `SentinelDownloader`. -/
def freshSession : Session := ⟨none, none, none⟩

/-- Heap after the class body ran: all class-attribute lists are empty. -/
def initialHeap : ObjHeap := ⟨fun _ => [], fun _ => []⟩

def updateStr (f : ℕ → List String) (a : ℕ) (v : List String) : ℕ → List String :=
  fun x => if x = a then v else f x

def updateScenes (f : ℕ → List Scene) (a : ℕ) (v : List Scene) : ℕ → List Scene :=
  fun x => if x = a then v else f x

/-- Address `self.__scenes` resolves to on a session. -/
def scenesAddr (i : Session) : ℕ := i.scenesRef.getD classScenesAddr

/-- Address `self.__data_dirs` resolves to on a session. -/
def dataDirsAddr (i : Session) : ℕ := i.dataDirsRef.getD classDataDirsAddr

/-- `set_data_dir`: `self.__data_dirs.append(data_dir)` mutates the
resolved list object in place and assigns no instance attribute. -/
def set_data_dir (h : ObjHeap) (i : Session) (d : String) : ObjHeap :=
  { h with strLists :=
      updateStr h.strLists (dataDirsAddr i) (h.strLists (dataDirsAddr i) ++ [d]) }

/-- The list `self.__data_dirs` reads on a session. -/
def observeDataDirs (h : ObjHeap) (i : Session) : List String :=
  h.strLists (dataDirsAddr i)

/-- The list `self.__scenes` reads on a session. -/
def observeScenes (h : ObjHeap) (i : Session) : List Scene :=
  h.sceneLists (scenesAddr i)

/-- The merge step of `search`:
`self.__scenes = self._merge_scenes(self.__scenes, scenes)` appends to
the resolved list object in place (`_merge_scenes` returns its first
argument) and assigns that same object to the instance attribute. -/
def searchMergeScenes (h : ObjHeap) (i : Session) (new : List Scene) : ObjHeap × Session :=
  let a := scenesAddr i
  ({ h with sceneLists := updateScenes h.sceneLists a (merge_scenes (h.sceneLists a) new) },
   { i with scenesRef := some a })

/-- C10 (code divergence): the scene collection and data-directory list
are class attributes mutated in place, hence shared between sessions:
after one fresh session registers the data directory "/d1" and merges
one searched scene, a session constructed afterwards ("freshSession"
again, with no instance attributes) already observes both, instead of
starting with empty lists of its own. -/
theorem session_state_shared :
    observeDataDirs
      ((searchMergeScenes (set_data_dir initialHeap freshSession "/d1")
        freshSession [⟨"idA", "tA", "uA"⟩]).1) freshSession = ["/d1"] ∧
    observeScenes
      ((searchMergeScenes (set_data_dir initialHeap freshSession "/d1")
        freshSession [⟨"idA", "tA", "uA"⟩]).1) freshSession = [⟨"idA", "tA", "uA"⟩] := by
  constructor
  · rfl
  · simp [observeScenes, searchMergeScenes, set_data_dir, updateScenes, scenesAddr,
      freshSession, initialHeap, merge_scenes]

/-- C8 (amended): `_is_valid` accepts exactly files above the minimum
size whose archive check finds no corrupt member; the exceptions the
check raises that the code catches (`zlib.error`, `BadZipfile`) count as
corrupt, while an exception of any other type propagates. In a
`download_all` run over scenes with pairwise-distinct paths that
completes without an uncaught exception, a fully downloaded file failing
verification is deleted from disk and recorded only in the failed list,
and a verified file is kept on disk and recorded only in the success
list; an uncaught check exception instead aborts the loop at that scene,
with the file kept on disk and recorded in neither list. -/
theorem download_verify_outcomes :
    (∀ (minsize size : ℕ) (z : ZipCheck),
      is_valid minsize size z = .ok true ↔ (minsize < size ∧ z = .intact)) ∧
    (∀ (minsize size : ℕ) (z : ZipCheck) (e : PyErr),
      is_valid minsize size z = .error e ↔ (minsize < size ∧ z = .testRaisesOther e)) ∧
    (∀ (dir : String) (files0 : List String) (items : List (Scene × DlResponse))
       (s : Scene) (cl size : ℕ) (z : ZipCheck),
      ((items.map (fun it => scenePath dir it.1)).Pairwise (· ≠ ·)) →
      (s, DlResponse.resp (some cl) size z) ∈ items →
      ¬ cl < 1000000 →
      (download_all dir (initState files0) items).2 = none →
      ((is_valid 1000000 size z = .ok false →
        scenePath dir s ∈ (download_all dir (initState files0) items).1.failed ∧
        scenePath dir s ∉ (download_all dir (initState files0) items).1.success ∧
        scenePath dir s ∉ (download_all dir (initState files0) items).1.files) ∧
       (is_valid 1000000 size z = .ok true →
        scenePath dir s ∈ (download_all dir (initState files0) items).1.success ∧
        scenePath dir s ∉ (download_all dir (initState files0) items).1.failed ∧
        scenePath dir s ∈ (download_all dir (initState files0) items).1.files))) ∧
    (∀ (dir : String) (st : DlState) (s : Scene) (rest : List (Scene × DlResponse))
       (cl size : ℕ) (e : PyErr),
      ¬ cl < 1000000 → 1000000 < size →
      download_all dir st ((s, DlResponse.resp (some cl) size (.testRaisesOther e)) :: rest) =
        ({ success := st.success, failed := st.failed,
           files := fsWrite st.files (scenePath dir s),
           written := st.written ++ [scenePath dir s] }, some e)) := by
  refine ⟨?_, ?_, ?_, ?_⟩
  · intro minsize size z
    by_cases hms : size > minsize
    · cases z <;> simp [is_valid, hms] <;> omega
    · cases z <;> simp [is_valid, hms] <;> omega
  · intro minsize size z e
    by_cases hms : size > minsize
    · cases z <;> simp [is_valid, hms] <;> omega
    · cases z <;> simp [is_valid, hms] <;> omega
  · intro dir files0 items s cl size z hdist hmem hcl hcomp
    obtain ⟨l1, l2, rfl⟩ := List.append_of_mem hmem
    set p := scenePath dir s with hp
    set item : Scene × DlResponse := (s, DlResponse.resp (some cl) size z) with hitem
    have hmap : (l1 ++ item :: l2).map (fun it => scenePath dir it.1) =
        l1.map (fun it => scenePath dir it.1) ++ p :: l2.map (fun it => scenePath dir it.1) := by
      simp [hitem]
    rw [hmap, List.pairwise_append] at hdist
    have hl1 : ∀ it ∈ l1, scenePath dir it.1 ≠ p := by
      intro it hit
      exact hdist.2.2 _ (List.mem_map_of_mem _ hit) p (List.mem_cons_self _ _)
    have hl2 : ∀ it ∈ l2, scenePath dir it.1 ≠ p := by
      intro it hit he
      exact (List.pairwise_cons.1 hdist.2.1).1 _ (List.mem_map_of_mem _ hit) he.symm
    cases h1 : download_all dir (initState files0) l1 with
    | mk st1 oe1 =>
      cases oe1 with
      | some e =>
        rw [download_all_append_err dir (initState files0) st1 e l1 (item :: l2) h1] at hcomp
        simp at hcomp
      | none =>
        have hrw := download_all_append_ok dir (initState files0) st1 l1 (item :: l2) h1
        rw [hrw] at hcomp ⊢
        have hfr1 := download_all_frame dir p (initState files0) l1
          (fun it hit he => absurd he (hl1 it hit))
        rw [h1] at hfr1
        have hns : p ∉ st1.success := fun hx => (List.not_mem_nil p) (hfr1.1.mp hx)
        have hnf : p ∉ st1.failed := fun hx => (List.not_mem_nil p) (hfr1.2.1.mp hx)
        have hfr2 := fun st => download_all_frame dir p st l2
          (fun it hit he => absurd he (hl2 it hit))
        constructor
        · intro hv
          have hd : dlStep dir st1 s item.2 = (DlState.mk st1.success (st1.failed ++ [p])
              (fsRemove (fsWrite st1.files p) p) (st1.written ++ [p]), none) := by
            simp [hitem, dlStep, hcl, hv, hp]
          have hru : download_all dir st1 (item :: l2) =
              download_all dir (DlState.mk st1.success (st1.failed ++ [p])
                (fsRemove (fsWrite st1.files p) p) (st1.written ++ [p])) l2 := by
            show (match dlStep dir st1 s item.2 with
              | (st2, none) => download_all dir st2 l2
              | (st2, some e) => (st2, some e)) = _
            rw [hd]
          rw [hru]
          have h2 := hfr2 (DlState.mk st1.success (st1.failed ++ [p])
            (fsRemove (fsWrite st1.files p) p) (st1.written ++ [p]))
          refine ⟨h2.2.1.mpr (by simp), fun hx => hns (h2.1.mp hx), fun hx => ?_⟩
          have := h2.2.2.2.mp hx
          simp [fsRemove, List.mem_filter] at this
        · intro hv
          have hd : dlStep dir st1 s item.2 = (DlState.mk (st1.success ++ [p]) st1.failed
              (fsWrite st1.files p) (st1.written ++ [p]), none) := by
            simp [hitem, dlStep, hcl, hv, hp]
          have hru : download_all dir st1 (item :: l2) =
              download_all dir (DlState.mk (st1.success ++ [p]) st1.failed
                (fsWrite st1.files p) (st1.written ++ [p])) l2 := by
            show (match dlStep dir st1 s item.2 with
              | (st2, none) => download_all dir st2 l2
              | (st2, some e) => (st2, some e)) = _
            rw [hd]
          rw [hru]
          have h2 := hfr2 (DlState.mk (st1.success ++ [p]) st1.failed
            (fsWrite st1.files p) (st1.written ++ [p]))
          refine ⟨h2.1.mpr (by simp), fun hx => hnf (h2.2.1.mp hx), ?_⟩
          refine h2.2.2.2.mpr ?_
          simp only [fsWrite]
          split
          · assumption
          · simp
  · intro dir st s rest cl size e hcl hsz
    have hd : dlStep dir st s (.resp (some cl) size (.testRaisesOther e)) =
        ({ success := st.success, failed := st.failed,
           files := fsWrite st.files (scenePath dir s),
           written := st.written ++ [scenePath dir s] }, some e) := by
      simp [dlStep, hcl, is_valid, hsz]
    show (match dlStep dir st s (.resp (some cl) size (.testRaisesOther e)) with
      | (st2, none) => download_all dir st2 rest
      | (st2, some e2) => (st2, some e2)) = _
    rw [hd]

/-- Concrete download batch for the C8 witness: scene "a" verifies, scene
"b" has a corrupt member. -/
def dlItemsW : List (Scene × DlResponse) :=
  [(⟨"i1", "a", "u1"⟩, .resp (some 2000000) 2000000 .intact),
   (⟨"i2", "b", "u2"⟩, .resp (some 2000000) 2000000 .corruptMember)]

/-- Witness for C8: the concrete batch completes; the corrupt download
ends only in the failed list and off the disk; the verified one only in
the success list and on the disk. -/
theorem download_verify_outcomes_witness :
    (scenePath "d" ⟨"i2", "b", "u2"⟩ ∈ (download_all "d" (initState []) dlItemsW).1.failed ∧
     scenePath "d" ⟨"i2", "b", "u2"⟩ ∉ (download_all "d" (initState []) dlItemsW).1.success ∧
     scenePath "d" ⟨"i2", "b", "u2"⟩ ∉ (download_all "d" (initState []) dlItemsW).1.files) ∧
    (scenePath "d" ⟨"i1", "a", "u1"⟩ ∈ (download_all "d" (initState []) dlItemsW).1.success ∧
     scenePath "d" ⟨"i1", "a", "u1"⟩ ∉ (download_all "d" (initState []) dlItemsW).1.failed ∧
     scenePath "d" ⟨"i1", "a", "u1"⟩ ∈ (download_all "d" (initState []) dlItemsW).1.files) :=
  ⟨(download_verify_outcomes.2.2.1 "d" [] dlItemsW ⟨"i2", "b", "u2"⟩ 2000000 2000000
      .corruptMember (by decide) (by decide) (by decide) (by decide)).1 rfl,
   (download_verify_outcomes.2.2.1 "d" [] dlItemsW ⟨"i1", "a", "u1"⟩ 2000000 2000000
      .intact (by decide) (by decide) (by decide) (by decide)).2 rfl⟩

/-- Counterexample to C8 as stated: a corruption-check exception of a
type `_is_valid` does not catch (here modelling a `RuntimeError`, as
raised for an encrypted member) is not treated as corrupt: the run
aborts with the exception, the file "d/a.zip" stays on disk and the
failed and success lists are both empty, instead of the file being
deleted and its path recorded in the failed list. -/
theorem download_verify_any_exception_cex :
    download_all "d" (initState [])
      [(⟨"i1", "a", "u1"⟩, .resp (some 2000000) 2000000 (.testRaisesOther .runtimeError))] =
      (⟨[], [], ["d/a.zip"], ["d/a.zip"]⟩, some .runtimeError) := by
  decide
